import Mathlib

set_option maxRecDepth 4000

/-!
Shallow embedding of the VR Translation Service Python SDK
(`src/sdk/python/vr_translate_sdk.py`), class `VRTranslateSDK`.

The SDK is a thin client: REST methods (`translate`, `batch_translate`,
`ocr`, `ocr_translate`, `get_languages`, `get_stats`) go through the HTTP
retry helper `_request`; WebSocket methods (`send_gaze_data`,
`send_screenshot`, `send_config`, `on_websocket_message`,
`off_websocket_message`, `connect_websocket`, `disconnect_websocket`) act
on the instance state `{ws, ws_listeners, request_id}`; a listener loop
(`_websocket_listener` / `_handle_websocket_message`) dispatches incoming
messages to registered callbacks.

The network is modelled as an oracle: for each HTTP attempt number
(1-based, as in the source's `for attempt in range(1, retries + 1)`) the
oracle gives the outcome the `aiohttp` call would produce.  Exceptions are
modelled by `Except`; `None` returned by falling off the retry loop is
modelled by `Option`.
-/

namespace VRTranslate

/-- The `{success, data, message}` JSON envelope returned by every REST
endpoint.  `data` is kept abstract (type `α`); `message` is `none` when the
JSON object has no `message` key (the source reads it with
`result.get('message', '请求失败')`). -/
structure Envelope (α : Type) where
  success : Bool
  data : α
  message : Option String
deriving DecidableEq, Repr

/-- What one HTTP attempt inside `_request` produces, as seen by the SDK:
either a transport-level exception before a response is available (timeout,
connection error, unparsable body), or a response with a status code,
reason phrase and (for status 200) a decoded JSON envelope. -/
inductive HttpOutcome (α : Type) where
  | transportError (msg : String)
  | response (status : Nat) (reason : String) (body : Envelope α)
deriving DecidableEq, Repr

/-- The exceptions the SDK raises, by source line:
`clientError` is `aiohttp.ClientError(f"HTTP {status}: {reason}")` or any
transport exception; `appError` is `Exception(result.get('message', '请求失败'))`
for a `success: false` envelope; `valueError` the two `ValueError`s of
`batch_translate`; `wsNotConnected` is `Exception("WebSocket未连接")`;
`noneSubscript` is the `TypeError` Python raises when a REST method indexes
`response['data']` and `_request` returned `None`. -/
inductive SdkError where
  | clientError (msg : String)
  | appError (msg : String)
  | valueError (msg : String)
  | wsNotConnected
  | noneSubscript
deriving DecidableEq, Repr

/-- The body of one iteration of `_request`'s retry loop, up to the
`return result`: raise on non-200 status, raise on a falsy `success`
field, otherwise return the whole envelope (lines 303-315). -/
def attemptResult {α : Type} : HttpOutcome α → Except SdkError (Envelope α)
  | .transportError msg => .error (.clientError msg)
  | .response status reason body =>
    if status ≠ 200 then
      .error (.clientError ("HTTP " ++ toString status ++ ": " ++ reason))
    else if body.success then
      .ok body
    else
      .error (.appError (body.message.getD "请求失败"))

/-- An outcome that makes the attempt fail: a transport-level failure
(exception / non-200 status) or an application-level failure
(`success: false` in the envelope). -/
def isFailure {α : Type} : HttpOutcome α → Bool
  | .transportError _ => true
  | .response status _ body => status ≠ 200 || !body.success

instance {ε α : Type} [DecidableEq ε] [DecidableEq α] : DecidableEq (Except ε α)
  | .error e, .error f =>
    if h : e = f then .isTrue (by rw [h])
    else .isFalse (by intro c; injection c; contradiction)
  | .error _, .ok _ => .isFalse (by intro c; cases c)
  | .ok _, .error _ => .isFalse (by intro c; cases c)
  | .ok a, .ok b =>
    if h : a = b then .isTrue (by rw [h])
    else .isFalse (by intro c; injection c; contradiction)

/-- Everything observable about one call of `_request`: the value it
returns or the exception it raises (`Except.ok none` models the implicit
`None` when the loop body never runs), how many HTTP attempts were issued,
and the argument of each `asyncio.sleep` in order. -/
structure ReqTrace (α : Type) where
  result : Except SdkError (Option (Envelope α))
  attempts : Nat
  sleeps : List Nat
deriving DecidableEq, Repr

/-- The retry loop of `_request` (lines 299-322), run on the list of
outcomes of the remaining attempts; `attempt` is the current 1-based
attempt number.  On success the envelope is returned; on failure at the
last attempt (`attempt == self.config['retries']`, i.e. the rest of the
list is empty) the error is re-raised; otherwise the helper sleeps
`2 ** attempt` seconds and retries. -/
def requestAux {α : Type} : Nat → List (HttpOutcome α) → ReqTrace α
  | _, [] => ⟨.ok none, 0, []⟩
  | attempt, o :: rest =>
    match attemptResult o with
    | .ok env => ⟨.ok (some env), 1, []⟩
    | .error e =>
      match rest with
      | [] => ⟨.error e, 1, []⟩
      | r :: rs =>
        let t := requestAux (attempt + 1) (r :: rs)
        ⟨t.result, t.attempts + 1, 2 ^ attempt :: t.sleeps⟩

/-- The outcomes of attempts `1, …, retries` drawn from the oracle;
`range(1, retries + 1)` is empty when `retries ≤ 0` (`retries` is a Python
`int`, so it may be negative). -/
def attemptList {α : Type} (oracle : Nat → HttpOutcome α) (retries : Int) :
    List (HttpOutcome α) :=
  (List.range' 1 retries.toNat).map oracle

/-- `_request(method, path, data)` under the oracle: the full trace of the
retry loop started at attempt 1. -/
def requestTrace {α : Type} (oracle : Nat → HttpOutcome α) (retries : Int) :
    ReqTrace α :=
  requestAux 1 (attemptList oracle retries)

/-- What a REST method returns: `response['data']` applied to what
`_request` produced.  An exception propagates unchanged; indexing the
`None` of an exhausted-without-running loop raises a `TypeError`
(`noneSubscript`); otherwise exactly the `data` field of the envelope is
returned. -/
def restResult {α : Type} (oracle : Nat → HttpOutcome α) (retries : Int) :
    Except SdkError α :=
  match (requestTrace oracle retries).result with
  | .error e => .error e
  | .ok none => .error .noneSubscript
  | .ok (some env) => .ok env.data

/-- `translate(text, source_lang, target_lang)`: POST `/api/translate`
then return `response['data']` (lines 72-93). -/
def translate {α : Type} (text sourceLang targetLang : String)
    (oracle : Nat → HttpOutcome α) (retries : Int) : Except SdkError α :=
  restResult oracle retries

/-- `ocr(image, lang)`: POST `/api/ocr` then return `response['data']`
(lines 124-148). -/
def ocr {α : Type} (image lang : String)
    (oracle : Nat → HttpOutcome α) (retries : Int) : Except SdkError α :=
  restResult oracle retries

/-- `ocr_translate(image, source_lang, target_lang)`: POST
`/api/ocr-translate` then return `response['data']` (lines 150-177). -/
def ocr_translate {α : Type} (image sourceLang targetLang : String)
    (oracle : Nat → HttpOutcome α) (retries : Int) : Except SdkError α :=
  restResult oracle retries

/-- `get_languages()`: GET `/api/languages` then return `response['data']`
(lines 179-187). -/
def get_languages {α : Type} (oracle : Nat → HttpOutcome α) (retries : Int) :
    Except SdkError α :=
  restResult oracle retries

/-- `get_stats()`: GET `/api/stats` then return `response['data']`
(lines 189-197). -/
def get_stats {α : Type} (oracle : Nat → HttpOutcome α) (retries : Int) :
    Except SdkError α :=
  restResult oracle retries

/-- The `texts` argument of `batch_translate` as Python receives it:
either not a `list` at all (the `isinstance(texts, list)` check) or a list
of texts. -/
inductive PyList (β : Type) where
  | notList
  | list (xs : List β)
deriving DecidableEq, Repr

/-- Everything observable about one REST method call: its return value or
exception, whether control reached the `self._request(...)` call, and how
many HTTP attempts that call issued. -/
structure MethodTrace (α : Type) where
  result : Except SdkError α
  calledRequest : Bool
  attempts : Nat
deriving DecidableEq, Repr

/-- `batch_translate(texts, source_lang, target_lang)` (lines 95-122):
raise `ValueError` when `texts` is not a non-empty list or has more than
100 elements, before any HTTP activity; otherwise POST
`/api/translate/batch` and return `response['data']`. -/
def batch_translate {α β : Type} (texts : PyList β)
    (sourceLang targetLang : String)
    (oracle : Nat → HttpOutcome α) (retries : Int) : MethodTrace α :=
  match texts with
  | .notList => ⟨.error (.valueError "texts must be a non-empty list"), false, 0⟩
  | .list xs =>
    if xs.length = 0 then
      ⟨.error (.valueError "texts must be a non-empty list"), false, 0⟩
    else if xs.length > 100 then
      ⟨.error (.valueError "Maximum 100 texts allowed for batch translation"), false, 0⟩
    else
      ⟨restResult oracle retries, true, (requestTrace oracle retries).attempts⟩

/-- `texts` passes `batch_translate`'s validation: a list of 1 to 100
elements. -/
def batchSizeOk {β : Type} : PyList β → Bool
  | .notList => false
  | .list xs => 1 ≤ xs.length && xs.length ≤ 100

/-- An outgoing WebSocket message as built by `_send_websocket_message`
(lines 336-341): the payload type `μ` stands for the caller-supplied
Python dict. -/
structure WsOutMessage (μ : Type) where
  type : String
  payload : μ
  id : Nat
  timestamp : Nat
deriving DecidableEq, Repr

/-- A JSON field value of the outgoing message object. -/
inductive WsFieldValue (μ : Type) where
  | str (s : String)
  | num (n : Nat)
  | payload (p : μ)
deriving DecidableEq, Repr

/-- The JSON object `json.dumps` serialises, as the association list the
dict literal of lines 336-341 builds: exactly the keys `type`, `payload`,
`id`, `timestamp`, in that order. -/
def wsMessageFields {μ : Type} (m : WsOutMessage μ) :
    List (String × WsFieldValue μ) :=
  [("type", .str m.type), ("payload", .payload m.payload),
   ("id", .num m.id), ("timestamp", .num m.timestamp)]

/-- The mutable per-instance state the WebSocket side of the SDK touches:
`ws` is `none` for Python `None` and `some closed` for a connection object
whose `closed` attribute is the Bool; `sent` records every frame passed to
`ws.send`, in order; `ws_listeners` maps a message-type string to the list
of registered callbacks (callbacks are identified by a `Nat`, standing for
Python function-object identity). -/
structure SdkState (μ : Type) where
  ws : Option Bool
  request_id : Nat
  sent : List (WsOutMessage μ)
  ws_listeners : List (String × List Nat)
deriving DecidableEq, Repr

/-- The state `__init__` establishes (lines 44-46): no connection, empty
listener registry, `request_id = 0`. -/
def initState (μ : Type) : SdkState μ :=
  ⟨none, 0, [], []⟩

/-- `self.ws` is truthy and the connection is not closed: the negation of
the guard `if not self.ws or self.ws.closed` (line 332). -/
def wsActive {μ : Type} (s : SdkState μ) : Bool :=
  match s.ws with
  | none => false
  | some closed => !closed

/-- `_send_websocket_message(message_type, payload)` (lines 324-343):
raise `Exception("WebSocket未连接")` when there is no active connection;
otherwise increment `request_id`, build the message carrying the
incremented value and the current millisecond timestamp `ts`, and send
it.  Returns the raised exception or `()`, with the post state. -/
def send_websocket_message {μ : Type} (message_type : String) (payload : μ)
    (ts : Nat) (s : SdkState μ) : Except SdkError Unit × SdkState μ :=
  if wsActive s then
    let rid := s.request_id + 1
    let message : WsOutMessage μ := ⟨message_type, payload, rid, ts⟩
    (.ok (), { s with request_id := rid, sent := s.sent ++ [message] })
  else
    (.error .wsNotConnected, s)

/-- `send_gaze_data(gaze_data)` (lines 224-231). -/
def send_gaze_data {μ : Type} (gaze_data : μ) (ts : Nat) (s : SdkState μ) :
    Except SdkError Unit × SdkState μ :=
  send_websocket_message "gaze" gaze_data ts s

/-- `send_screenshot(screenshot_data)` (lines 233-240). -/
def send_screenshot {μ : Type} (screenshot_data : μ) (ts : Nat)
    (s : SdkState μ) : Except SdkError Unit × SdkState μ :=
  send_websocket_message "screenshot" screenshot_data ts s

/-- `send_config(config)` (lines 242-249). -/
def send_config {μ : Type} (config : μ) (ts : Nat) (s : SdkState μ) :
    Except SdkError Unit × SdkState μ :=
  send_websocket_message "config" config ts s

/-- `on_websocket_message(message_type, callback)` (lines 251-261) on the
registry alone: create the key with `[]` when absent, then append. -/
def addListener (l : List (String × List Nat)) (message_type : String)
    (cb : Nat) : List (String × List Nat) :=
  match l with
  | [] => [(message_type, [cb])]
  | (k, cbs) :: rest =>
    if k = message_type then (k, cbs ++ [cb]) :: rest
    else (k, cbs) :: addListener rest message_type cb

/-- Python's `list.remove`: drop the first occurrence, leave the list
unchanged when absent (the `except ValueError: pass` of lines 272-275). -/
def removeFirst (xs : List Nat) (y : Nat) : List Nat :=
  match xs with
  | [] => []
  | x :: rest => if x = y then rest else x :: removeFirst rest y

/-- `off_websocket_message(message_type, callback)` (lines 263-275) on the
registry alone: when the key exists, remove the callback's first
occurrence. -/
def removeListener (l : List (String × List Nat)) (message_type : String)
    (cb : Nat) : List (String × List Nat) :=
  match l with
  | [] => []
  | (k, cbs) :: rest =>
    if k = message_type then (k, removeFirst cbs cb) :: rest
    else (k, cbs) :: removeListener rest message_type cb

/-- The state-changing operations of the SDK instance.  `rest_request`
stands for any of the six REST methods (they act on `session` only, never
on `ws`, `request_id` or `ws_listeners`); the sends carry the payload and
the wall-clock millisecond timestamp; `connect_websocket` models the
successful connect (lines 203-214). -/
inductive SdkOp (μ : Type) where
  | connect_websocket
  | disconnect_websocket
  | rest_request
  | send_gaze_data (p : μ) (ts : Nat)
  | send_screenshot (p : μ) (ts : Nat)
  | send_config (p : μ) (ts : Nat)
  | on_websocket_message (t : String) (cb : Nat)
  | off_websocket_message (t : String) (cb : Nat)
deriving DecidableEq, Repr

/-- The state transition of each operation.  `connect_websocket` stores a
fresh open connection; `disconnect_websocket` (lines 216-222), when `ws`
is truthy, closes it, sets `ws = None` and clears `ws_listeners`; a send
that raises leaves the state as `send_websocket_message` returned it
(unchanged). -/
def stepOp {μ : Type} : SdkOp μ → SdkState μ → SdkState μ
  | .connect_websocket, s => { s with ws := some false }
  | .disconnect_websocket, s =>
    match s.ws with
    | none => s
    | some _ => { s with ws := none, ws_listeners := [] }
  | .rest_request, s => s
  | .send_gaze_data p ts, s => (send_gaze_data p ts s).2
  | .send_screenshot p ts, s => (send_screenshot p ts s).2
  | .send_config p ts, s => (send_config p ts s).2
  | .on_websocket_message t cb, s =>
    { s with ws_listeners := addListener s.ws_listeners t cb }
  | .off_websocket_message t cb, s =>
    { s with ws_listeners := removeListener s.ws_listeners t cb }

/-- Run a sequence of operations from the freshly initialised instance. -/
def run {μ : Type} (ops : List (SdkOp μ)) : SdkState μ :=
  ops.foldl (fun s op => stepOp op s) (initState μ)

/-- The operation is one of the two explicit listener add/remove calls. -/
def isListenerAddRemove {μ : Type} : SdkOp μ → Bool
  | .on_websocket_message _ _ => true
  | .off_websocket_message _ _ => true
  | _ => false

/-- The operation is one of the calls that touch `ws_listeners` at all:
the two explicit add/remove calls, or `disconnect_websocket`, which calls
`ws_listeners.clear()` (line 221). -/
def touchesListeners {μ : Type} : SdkOp μ → Bool
  | .on_websocket_message _ _ => true
  | .off_websocket_message _ _ => true
  | .disconnect_websocket => true
  | _ => false

/-- What invoking one callback on a message does: return normally or
raise (with the exception's text). -/
inductive CbResult where
  | ok
  | raises (msg : String)
deriving DecidableEq, Repr

/-- An incoming message once `json.loads` succeeded: `type` is
`message.get('type')` (absent key gives `None`, hence `Option`), `body`
the whole decoded message handed to each callback. -/
structure WsInMessage (μ : Type) where
  type : Option String
  body : μ
deriving DecidableEq, Repr

/-- One frame read by the listener loop: either text that fails
`json.loads`, or a decoded message. -/
inductive RawMessage (μ : Type) where
  | invalidJson (raw : String)
  | parsed (msg : WsInMessage μ)
deriving DecidableEq, Repr

/-- The observable events of the listener loop: a callback invocation, a
logged callback error (line 380), or a logged JSON parse error
(line 354). -/
inductive DispatchEvent where
  | invoked (cb : Nat)
  | callbackError (cb : Nat) (msg : String)
  | parseError (raw : String)
deriving DecidableEq, Repr

/-- The dict lookup `message_type in self.ws_listeners` followed by
`self.ws_listeners[message_type]`; a `None` type never matches a key,
since the registry's keys are the strings passed to
`on_websocket_message`. -/
def lookupListeners (l : List (String × List Nat)) :
    Option String → Option (List Nat)
  | none => none
  | some t =>
    match l with
    | [] => none
    | (k, cbs) :: rest => if k = t then some cbs else lookupListeners rest (some t)

/-- The `for callback in ...` loop of `_handle_websocket_message`
(lines 373-380): each callback is invoked; when it raises, the error is
caught and logged, and the loop proceeds to the next callback.  `beh`
tells what each callback does on each message body. -/
def invokeCallbacks {μ : Type} (beh : Nat → μ → CbResult) (body : μ) :
    List Nat → List DispatchEvent
  | [] => []
  | cb :: rest =>
    match beh cb body with
    | .ok => .invoked cb :: invokeCallbacks beh body rest
    | .raises m => .invoked cb :: .callbackError cb m :: invokeCallbacks beh body rest

/-- `_handle_websocket_message(message)` (lines 362-380): look the type up
in the registry and run every registered callback; a type with no
listeners dispatches nothing. -/
def handle_websocket_message {μ : Type} (beh : Nat → μ → CbResult)
    (l : List (String × List Nat)) (msg : WsInMessage μ) : List DispatchEvent :=
  match lookupListeners l msg.type with
  | none => []
  | some cbs => invokeCallbacks beh msg.body cbs

/-- The events one frame of the listener loop produces: a parse failure is
logged (`except json.JSONDecodeError`), a decoded message is dispatched. -/
def messageEvents {μ : Type} (beh : Nat → μ → CbResult)
    (l : List (String × List Nat)) : RawMessage μ → List DispatchEvent
  | .invalidJson raw => [.parseError raw]
  | .parsed msg => handle_websocket_message beh l msg

/-- `_websocket_listener` (lines 346-360): the `async for` loop over the
incoming frames; every error of one iteration is caught inside the loop
body, so each frame is processed and the loop moves on to the next. -/
def websocket_listener {μ : Type} (beh : Nat → μ → CbResult)
    (l : List (String × List Nat)) : List (RawMessage μ) → List DispatchEvent
  | [] => []
  | .invalidJson raw :: rest =>
    .parseError raw :: websocket_listener beh l rest
  | .parsed msg :: rest =>
    handle_websocket_message beh l msg ++ websocket_listener beh l rest

/-- The callbacks a list of dispatch events records as invoked, in
order. -/
def invokedIds : List DispatchEvent → List Nat
  | [] => []
  | .invoked cb :: rest => cb :: invokedIds rest
  | .callbackError _ _ :: rest => invokedIds rest
  | .parseError _ :: rest => invokedIds rest

/-! ## Helper lemmas about the retry loop -/

theorem attemptResult_ok_success {α : Type} {o : HttpOutcome α} {env : Envelope α}
    (h : attemptResult o = .ok env) : env.success = true := by
  cases o with
  | transportError m => simp [attemptResult] at h
  | response status reason body =>
    by_cases hs : status = 200
    · subst hs
      by_cases hb : body.success = true
      · simp [attemptResult, hb] at h
        rw [← h]
        exact hb
      · simp [attemptResult, hb] at h
    · simp [attemptResult, hs] at h

theorem isFailure_iff_error {α : Type} (o : HttpOutcome α) :
    isFailure o = true ↔ ∃ e, attemptResult o = .error e := by
  cases o with
  | transportError m => simp [isFailure, attemptResult]
  | response status reason body =>
    by_cases hs : status = 200
    · subst hs
      by_cases hb : body.success = true
      · simp [isFailure, attemptResult, hb]
      · simp [isFailure, attemptResult, hb]
    · simp [isFailure, attemptResult, hs]

theorem requestAux_cons_ok {α : Type} (a : Nat) {o : HttpOutcome α}
    {env : Envelope α} (h : attemptResult o = .ok env)
    (rest : List (HttpOutcome α)) :
    requestAux a (o :: rest) = ⟨.ok (some env), 1, []⟩ := by
  cases rest with
  | nil => rw [requestAux.eq_def]; simp only []; rw [h]
  | cons r rs => rw [requestAux.eq_def]; simp only []; rw [h]

theorem requestAux_cons_err_nil {α : Type} (a : Nat) {o : HttpOutcome α}
    {e : SdkError} (h : attemptResult o = .error e) :
    requestAux a [o] = ⟨.error e, 1, []⟩ := by
  rw [requestAux.eq_def]; simp only []; rw [h]

theorem requestAux_cons_err_cons {α : Type} (a : Nat) {o : HttpOutcome α}
    {e : SdkError} (h : attemptResult o = .error e) (r : HttpOutcome α)
    (rs : List (HttpOutcome α)) :
    requestAux a (o :: r :: rs) =
      ⟨(requestAux (a + 1) (r :: rs)).result,
       (requestAux (a + 1) (r :: rs)).attempts + 1,
       2 ^ a :: (requestAux (a + 1) (r :: rs)).sleeps⟩ := by
  rw [requestAux.eq_def]; simp only []; rw [h]

theorem requestAux_attempts_pos {α : Type} (a : Nat) (o : HttpOutcome α)
    (rest : List (HttpOutcome α)) : 1 ≤ (requestAux a (o :: rest)).attempts := by
  cases h : attemptResult o with
  | ok env => rw [requestAux_cons_ok a h rest]
  | error e =>
    cases rest with
    | nil => rw [requestAux_cons_err_nil a h]
    | cons r rs =>
      rw [requestAux_cons_err_cons a h r rs]
      exact Nat.le_add_left 1 _

theorem requestAux_append_fail {α : Type} (o : HttpOutcome α) (e : SdkError)
    (he : attemptResult o = .error e) :
    ∀ (l : List (HttpOutcome α)) (a : Nat), (∀ x ∈ l, isFailure x = true) →
    (requestAux a (l ++ [o])).result = .error e ∧
    (requestAux a (l ++ [o])).attempts = l.length + 1 := by
  intro l
  induction l with
  | nil => intro a _; rw [List.nil_append, requestAux_cons_err_nil a he]; exact ⟨rfl, rfl⟩
  | cons x xs ih =>
    intro a hl
    obtain ⟨ex, hex⟩ := (isFailure_iff_error x).mp (hl x (List.mem_cons_self x xs))
    have hxs : ∀ y ∈ xs, isFailure y = true :=
      fun y hy => hl y (List.mem_cons_of_mem x hy)
    have ih2 := ih (a + 1) hxs
    cases xs with
    | nil =>
      rw [List.cons_append, List.nil_append, requestAux_cons_err_cons a hex o [],
        requestAux_cons_err_nil (a + 1) he]
      exact ⟨rfl, rfl⟩
    | cons x2 xs2 =>
      simp only [List.cons_append] at ih2 ⊢
      rw [requestAux_cons_err_cons a hex x2 (xs2 ++ [o])]
      refine ⟨ih2.1, ?_⟩
      have := ih2.2
      simp only [List.length_cons] at this ⊢
      omega

theorem requestAux_append_success {α : Type} (o : HttpOutcome α) (env : Envelope α)
    (ho : attemptResult o = .ok env) :
    ∀ (l : List (HttpOutcome α)) (l2 : List (HttpOutcome α)) (a : Nat),
    (∀ x ∈ l, isFailure x = true) →
    (requestAux a (l ++ o :: l2)).result = .ok (some env) ∧
    (requestAux a (l ++ o :: l2)).attempts = l.length + 1 := by
  intro l
  induction l with
  | nil =>
    intro l2 a _
    rw [List.nil_append, requestAux_cons_ok a ho l2]
    exact ⟨rfl, rfl⟩
  | cons x xs ih =>
    intro l2 a hl
    obtain ⟨ex, hex⟩ := (isFailure_iff_error x).mp (hl x (List.mem_cons_self x xs))
    have hxs : ∀ y ∈ xs, isFailure y = true :=
      fun y hy => hl y (List.mem_cons_of_mem x hy)
    have ih2 := ih l2 (a + 1) hxs
    cases xs with
    | nil =>
      rw [List.cons_append, List.nil_append, requestAux_cons_err_cons a hex o l2,
        requestAux_cons_ok (a + 1) ho l2]
      exact ⟨rfl, rfl⟩
    | cons x2 xs2 =>
      simp only [List.cons_append] at ih2 ⊢
      rw [requestAux_cons_err_cons a hex x2 (xs2 ++ o :: l2)]
      refine ⟨ih2.1, ?_⟩
      have := ih2.2
      simp only [List.length_cons] at this ⊢
      omega

theorem requestAux_sleeps {α : Type} :
    ∀ (l : List (HttpOutcome α)) (a : Nat),
    (requestAux a l).sleeps =
      (List.range' a ((requestAux a l).attempts - 1)).map (fun n => 2 ^ n) := by
  intro l
  induction l with
  | nil => intro a; simp [requestAux]
  | cons o rest ih =>
    intro a
    cases h : attemptResult o with
    | ok env => rw [requestAux_cons_ok a h rest]; simp
    | error e =>
      cases rest with
      | nil => rw [requestAux_cons_err_nil a h]; simp
      | cons r rs =>
        have hpos := requestAux_attempts_pos (a + 1) r rs
        obtain ⟨k, hk⟩ : ∃ k, (requestAux (a + 1) (r :: rs)).attempts = k + 1 :=
          ⟨(requestAux (a + 1) (r :: rs)).attempts - 1, by omega⟩
        have ih2 := ih (a + 1)
        rw [requestAux_cons_err_cons a h r rs]
        simp only [hk] at ih2 ⊢
        simp only [Nat.add_sub_cancel] at ih2 ⊢
        simp only [List.range'_succ, List.map_cons]
        rw [ih2]

theorem requestAux_result_not_none {α : Type} (a : Nat) (o : HttpOutcome α)
    (rest : List (HttpOutcome α)) :
    (requestAux a (o :: rest)).result ≠ .ok none := by
  induction rest generalizing a o with
  | nil =>
    cases h : attemptResult o with
    | ok env => rw [requestAux_cons_ok a h]; simp
    | error e => rw [requestAux_cons_err_nil a h]; simp
  | cons r rs ih =>
    cases h : attemptResult o with
    | ok env => rw [requestAux_cons_ok a h]; simp
    | error e => rw [requestAux_cons_err_cons a h r rs]; exact ih (a + 1) r

theorem requestAux_result_success {α : Type} :
    ∀ (l : List (HttpOutcome α)) (a : Nat) (env : Envelope α),
    (requestAux a l).result = .ok (some env) → env.success = true := by
  intro l
  induction l with
  | nil => intro a env h; simp [requestAux] at h
  | cons o rest ih =>
    intro a env h
    cases ho : attemptResult o with
    | ok env2 =>
      rw [requestAux_cons_ok a ho rest] at h
      simp only [Except.ok.injEq, Option.some.injEq] at h
      subst h
      exact attemptResult_ok_success ho
    | error e =>
      cases rest with
      | nil => rw [requestAux_cons_err_nil a ho] at h; simp at h
      | cons r rs =>
        rw [requestAux_cons_err_cons a ho r rs] at h
        exact ih (a + 1) env h

theorem attemptList_concat {α : Type} (oracle : Nat → HttpOutcome α)
    {retries : Int} (h : 1 ≤ retries) :
    attemptList oracle retries =
      (List.range' 1 (retries.toNat - 1)).map oracle ++ [oracle retries.toNat] := by
  unfold attemptList
  obtain ⟨k, hk⟩ : ∃ k, retries.toNat = k + 1 := ⟨retries.toNat - 1, by omega⟩
  rw [hk, List.range'_1_concat, List.map_append]
  simp [Nat.add_comm]

theorem attemptList_split {α : Type} (oracle : Nat → HttpOutcome α)
    {retries : Int} {m : Nat} (h1 : 1 ≤ m) (h2 : (m : Int) ≤ retries) :
    attemptList oracle retries =
      (List.range' 1 (m - 1)).map oracle ++
        oracle m :: (List.range' (m + 1) (retries.toNat - m)).map oracle := by
  unfold attemptList
  have hsum : retries.toNat = ((retries.toNat - m) + 1) + (m - 1) := by omega
  rw [hsum, ← List.range'_append_1 1 (m - 1) ((retries.toNat - m) + 1),
    List.map_append, List.range'_succ]
  have h1m : 1 + (m - 1) = m := by omega
  rw [h1m]
  have harg : retries.toNat - m + 1 + (m - 1) - m = retries.toNat - m := by omega
  rw [harg, List.map_cons]

theorem requestTrace_all_fail {α : Type} (oracle : Nat → HttpOutcome α)
    {retries : Int} (h1 : 1 ≤ retries)
    (hfail : ∀ n, 1 ≤ n → n ≤ retries.toNat → isFailure (oracle n) = true) :
    (requestTrace oracle retries).attempts = retries.toNat ∧
    ∃ e, attemptResult (oracle retries.toNat) = .error e ∧
      (requestTrace oracle retries).result = .error e := by
  have hpos : 1 ≤ retries.toNat := by omega
  obtain ⟨e, he⟩ := (isFailure_iff_error (oracle retries.toNat)).mp
    (hfail retries.toNat hpos (Nat.le_refl _))
  have hfl : ∀ x ∈ (List.range' 1 (retries.toNat - 1)).map oracle,
      isFailure x = true := by
    intro x hx
    obtain ⟨n, hn, rfl⟩ := List.mem_map.mp hx
    rw [List.mem_range'_1] at hn
    exact hfail n hn.1 (by omega)
  have main := requestAux_append_fail (oracle retries.toNat) e he
    ((List.range' 1 (retries.toNat - 1)).map oracle) 1 hfl
  unfold requestTrace
  rw [attemptList_concat oracle h1]
  refine ⟨?_, e, he, main.1⟩
  rw [main.2]
  simp
  omega

theorem requestTrace_success {α : Type} (oracle : Nat → HttpOutcome α)
    {retries : Int} {m : Nat} {env : Envelope α}
    (h1 : 1 ≤ m) (h2 : (m : Int) ≤ retries)
    (hm : attemptResult (oracle m) = .ok env)
    (hbefore : ∀ n, 1 ≤ n → n < m → isFailure (oracle n) = true) :
    (requestTrace oracle retries).result = .ok (some env) ∧
    (requestTrace oracle retries).attempts = m := by
  have hfl : ∀ x ∈ (List.range' 1 (m - 1)).map oracle, isFailure x = true := by
    intro x hx
    obtain ⟨n, hn, rfl⟩ := List.mem_map.mp hx
    rw [List.mem_range'_1] at hn
    exact hbefore n hn.1 (by omega)
  have main := requestAux_append_success (oracle m) env hm
    ((List.range' 1 (m - 1)).map oracle)
    ((List.range' (m + 1) (retries.toNat - m)).map oracle) 1 hfl
  unfold requestTrace
  rw [attemptList_split oracle h1 h2]
  refine ⟨main.1, ?_⟩
  rw [main.2]
  simp
  omega

/-! ## Claim theorems: the HTTP retry helper and the REST methods -/

/-- C1: for every request through `_request` (hence every REST method),
both a transport-level failure (non-200 status, timeout) and an
application-level failure (`success: false` envelope) trigger the retry
loop; when every attempt fails, exactly `retries` attempts are issued and
the error of the last attempt propagates to the caller of each REST
method. -/
theorem C1_retry_exhaustion_last_error {α : Type}
    (oracle : Nat → HttpOutcome α) (retries : Int)
    (text sourceLang targetLang image lang : String) (ts : List String)
    (hretries : 1 ≤ retries)
    (hts : 1 ≤ ts.length ∧ ts.length ≤ 100)
    (hfail : ∀ n, 1 ≤ n → n ≤ retries.toNat → isFailure (oracle n) = true) :
    (requestTrace oracle retries).attempts = retries.toNat ∧
    ∃ e, attemptResult (oracle retries.toNat) = .error e ∧
      (requestTrace oracle retries).result = .error e ∧
      translate text sourceLang targetLang oracle retries = .error e ∧
      (batch_translate (.list ts) sourceLang targetLang oracle retries).result
        = .error e ∧
      ocr image lang oracle retries = .error e ∧
      ocr_translate image sourceLang targetLang oracle retries = .error e ∧
      get_languages oracle retries = .error e ∧
      get_stats oracle retries = .error e := by
  obtain ⟨hatt, e, he, hres⟩ := requestTrace_all_fail oracle hretries hfail
  have hrest : restResult oracle retries = .error e := by
    unfold restResult
    rw [hres]
  have hbatch : (batch_translate (.list ts) sourceLang targetLang oracle
      retries).result = .error e := by
    unfold batch_translate
    have hne : ¬ ts.length = 0 := by omega
    have hle : ¬ ts.length > 100 := by omega
    simp only [hne, hle, if_false]
    exact hrest
  exact ⟨hatt, e, he, hres, hrest, hbatch, hrest, hrest, hrest, hrest⟩

/-- Witness for C1 at a concrete input: two attempts, both timing out. -/
theorem C1_witness :
    (requestTrace (fun _ => HttpOutcome.transportError (α := Nat) "timeout") 2).attempts
      = (2 : Int).toNat :=
  (C1_retry_exhaustion_last_error (fun _ => HttpOutcome.transportError "timeout") 2
    "hello" "en" "zh-CN" "img" "auto" ["hello"]
    (by decide) (by decide) (fun n _ _ => rfl)).1

/-- C2: the delay between a failed attempt and the next retry grows
exponentially: the sleeps of one `_request` call are exactly
`2^1, 2^2, …, 2^(attempts-1)` — after failed attempt `n` the helper
sleeps `2^n` seconds, and no sleep follows the final attempt; in
particular, when every attempt up to the configured retry count fails,
the sleeps are `2^n` for every `n` strictly below `retries`. -/
theorem C2_exponential_backoff {α : Type}
    (oracle : Nat → HttpOutcome α) (retries : Int) :
    ((requestTrace oracle retries).sleeps =
      (List.range' 1 ((requestTrace oracle retries).attempts - 1)).map
        (fun n => 2 ^ n)) ∧
    (1 ≤ retries →
      (∀ n, 1 ≤ n → n ≤ retries.toNat → isFailure (oracle n) = true) →
      (requestTrace oracle retries).sleeps =
        (List.range' 1 (retries.toNat - 1)).map (fun n => 2 ^ n)) := by
  constructor
  · exact requestAux_sleeps (attemptList oracle retries) 1
  · intro h1 hfail
    have hatt := (requestTrace_all_fail oracle h1 hfail).1
    unfold requestTrace at hatt ⊢
    rw [requestAux_sleeps (attemptList oracle retries) 1, hatt]

/-- Witness for C2 at a concrete input: three attempts, all failing with
HTTP 500, sleep 2 then 4 seconds. -/
theorem C2_witness :
    (requestTrace (fun _ => HttpOutcome.response (α := Nat) 500 "err"
      ⟨false, 0, none⟩) 3).sleeps =
      (List.range' 1 ((3 : Int).toNat - 1)).map (fun n => 2 ^ n) :=
  (C2_exponential_backoff (fun _ => HttpOutcome.response 500 "err"
    ⟨false, 0, none⟩) 3).2 (by decide) (fun n _ _ => rfl)

/-- C3: whenever the remote response is a 200 whose envelope has
`success: true` (after any run of failed attempts), every REST method
returns exactly the `data` field of that envelope — never the whole
envelope or any other field. -/
theorem C3_methods_return_envelope_data {α : Type}
    (oracle : Nat → HttpOutcome α) (retries : Int) (m : Nat)
    (reason : String) (env : Envelope α)
    (text sourceLang targetLang image lang : String) (ts : List String)
    (h1 : 1 ≤ m) (h2 : (m : Int) ≤ retries)
    (hts : 1 ≤ ts.length ∧ ts.length ≤ 100)
    (hresp : oracle m = .response 200 reason env)
    (hsucc : env.success = true)
    (hbefore : ∀ n, 1 ≤ n → n < m → isFailure (oracle n) = true) :
    translate text sourceLang targetLang oracle retries = .ok env.data ∧
    (batch_translate (.list ts) sourceLang targetLang oracle retries).result
      = .ok env.data ∧
    ocr image lang oracle retries = .ok env.data ∧
    ocr_translate image sourceLang targetLang oracle retries = .ok env.data ∧
    get_languages oracle retries = .ok env.data ∧
    get_stats oracle retries = .ok env.data := by
  have hm : attemptResult (oracle m) = .ok env := by
    rw [hresp]
    simp [attemptResult, hsucc]
  have hres := (requestTrace_success oracle h1 h2 hm hbefore).1
  have hrest : restResult oracle retries = .ok env.data := by
    unfold restResult
    rw [hres]
  have hbatch : (batch_translate (.list ts) sourceLang targetLang oracle
      retries).result = .ok env.data := by
    unfold batch_translate
    have hne : ¬ ts.length = 0 := by omega
    have hle : ¬ ts.length > 100 := by omega
    simp only [hne, hle, if_false]
    exact hrest
  exact ⟨hrest, hbatch, hrest, hrest, hrest, hrest⟩

/-- Witness for C3 at a concrete input: success at the first of one
attempt, with data 42. -/
theorem C3_witness :
    translate "hello" "en" "zh-CN"
      (fun _ => HttpOutcome.response 200 "OK"
        (⟨true, (42 : Nat), none⟩ : Envelope Nat)) 1 = .ok 42 :=
  (C3_methods_return_envelope_data
    (fun _ => HttpOutcome.response 200 "OK" ⟨true, 42, none⟩) 1 1 "OK"
    ⟨true, 42, none⟩ "hello" "en" "zh-CN" "img" "auto" ["hi"]
    (by decide) (by decide) (by decide) rfl rfl
    (fun n hn1 hn2 => absurd hn2 (by omega))).1

/-- C8: `batch_translate` validates its input before any network
activity: a non-list, an empty list, or a list of more than 100 texts
raises `ValueError` with no HTTP request issued; a list of 1 to 100 texts
passes validation and the request is issued. -/
theorem C8_batch_validates_before_request {α β : Type} (texts : PyList β)
    (sourceLang targetLang : String) (oracle : Nat → HttpOutcome α)
    (retries : Int) :
    (batchSizeOk texts = false →
      (batch_translate texts sourceLang targetLang oracle
        retries).calledRequest = false ∧
      (batch_translate texts sourceLang targetLang oracle retries).attempts
        = 0 ∧
      ∃ msg, (batch_translate texts sourceLang targetLang oracle
        retries).result = .error (.valueError msg)) ∧
    (batchSizeOk texts = true →
      (batch_translate texts sourceLang targetLang oracle
        retries).calledRequest = true) := by
  cases texts with
  | notList => simp [batch_translate, batchSizeOk]
  | list xs =>
    by_cases h0 : xs.length = 0
    · constructor
      · intro _
        simp [batch_translate, h0]
      · intro hok
        simp [batchSizeOk, h0] at hok
    · by_cases h100 : xs.length > 100
      · constructor
        · intro _
          simp [batch_translate, h0, h100]
        · intro hok
          simp [batchSizeOk, Bool.and_eq_true] at hok
          omega
      · constructor
        · intro hbad
          simp [batchSizeOk, Bool.and_eq_false_iff] at hbad
          omega
        · intro _
          simp [batch_translate, h0, h100]

/-- Witness for C8 at a concrete input: a non-list issues no request. -/
theorem C8_witness :
    (batch_translate (PyList.notList (β := Nat)) "en" "zh-CN"
      (fun _ => HttpOutcome.transportError (α := Nat) "x") 3).calledRequest
      = false :=
  ((C8_batch_validates_before_request PyList.notList "en" "zh-CN"
    (fun _ => HttpOutcome.transportError "x") 3).1 rfl).1

/-- C9: with a zero or negative configured retry count, `_request`'s loop
body never runs and `_request` returns `None`, so a REST method such as
`translate` raises a `TypeError` when it indexes `response['data']`; with
`retries ≥ 1`, `_request` either raises or returns an envelope whose
`success` field is true. -/
theorem C9_nonpositive_retries {α : Type} (oracle : Nat → HttpOutcome α)
    (retries : Int) (text sourceLang targetLang : String) :
    (retries ≤ 0 →
      (requestTrace oracle retries).attempts = 0 ∧
      (requestTrace oracle retries).result = .ok none ∧
      translate text sourceLang targetLang oracle retries
        = .error .noneSubscript) ∧
    (1 ≤ retries →
      (requestTrace oracle retries).result ≠ .ok none ∧
      ∀ env, (requestTrace oracle retries).result = .ok (some env) →
        env.success = true) := by
  constructor
  · intro hneg
    have h0 : retries.toNat = 0 := by omega
    have hempty : attemptList oracle retries = [] := by
      unfold attemptList
      rw [h0]
      rfl
    have htr : requestTrace oracle retries = ⟨.ok none, 0, []⟩ := by
      unfold requestTrace
      rw [hempty, requestAux.eq_def]
    refine ⟨by rw [htr], by rw [htr], ?_⟩
    show restResult oracle retries = .error .noneSubscript
    unfold restResult
    rw [htr]
  · intro hpos
    obtain ⟨k, hk⟩ : ∃ k, retries.toNat = k + 1 := ⟨retries.toNat - 1, by omega⟩
    have hcons : attemptList oracle retries
        = oracle 1 :: (List.range' 2 k).map oracle := by
      unfold attemptList
      rw [hk, List.range'_succ, List.map_cons]
    constructor
    · unfold requestTrace
      rw [hcons]
      exact requestAux_result_not_none 1 (oracle 1) _
    · intro env henv
      unfold requestTrace at henv
      exact requestAux_result_success _ 1 env henv

/-- Witness for C9 at a concrete input: retry count 0 makes `translate`
raise the `TypeError`. -/
theorem C9_witness :
    translate "hello" "en" "zh-CN"
      (fun _ => HttpOutcome.transportError (α := Nat) "x") 0
      = .error .noneSubscript :=
  ((C9_nonpositive_retries (fun _ => HttpOutcome.transportError "x") 0
    "hello" "en" "zh-CN").1 (by decide)).2.2

/-! ## Claim theorems: the WebSocket side -/

/-- C4: a WebSocket send with no active connection (`ws` is `None`, or
its `closed` attribute is set) raises `Exception("WebSocket未连接")`
immediately: no retry loop is entered, the state is unchanged and nothing
is sent — for each of `send_gaze_data`, `send_screenshot`,
`send_config`. -/
theorem C4_send_raises_without_connection {μ : Type} (s : SdkState μ)
    (p : μ) (ts : Nat) (h : wsActive s = false) :
    send_gaze_data p ts s = (.error .wsNotConnected, s) ∧
    send_screenshot p ts s = (.error .wsNotConnected, s) ∧
    send_config p ts s = (.error .wsNotConnected, s) := by
  refine ⟨?_, ?_, ?_⟩ <;>
    simp [send_gaze_data, send_screenshot, send_config,
      send_websocket_message, h]

/-- Witness for C4 at a concrete input: the freshly initialised
instance has no connection, so a send raises and changes nothing. -/
theorem C4_witness :
    send_gaze_data (0 : Nat) 5 (initState Nat)
      = (.error .wsNotConnected, initState Nat) :=
  (C4_send_raises_without_connection (initState Nat) 0 5 rfl).1

/-- C7: every outgoing WebSocket message is a JSON object with exactly
the fields `type`, `payload`, `id`, `timestamp`; `send_gaze_data` sends
type `gaze`, `send_screenshot` type `screenshot`, `send_config` type
`config`, and the payload is the caller-supplied dict unchanged. -/
theorem C7_outgoing_message_shape {μ : Type} (s : SdkState μ) (p : μ)
    (ts : Nat) (h : wsActive s = true) :
    (send_gaze_data p ts s).2.sent
      = s.sent ++ [⟨"gaze", p, s.request_id + 1, ts⟩] ∧
    (send_screenshot p ts s).2.sent
      = s.sent ++ [⟨"screenshot", p, s.request_id + 1, ts⟩] ∧
    (send_config p ts s).2.sent
      = s.sent ++ [⟨"config", p, s.request_id + 1, ts⟩] ∧
    ∀ m : WsOutMessage μ, (wsMessageFields m).map Prod.fst
      = ["type", "payload", "id", "timestamp"] := by
  refine ⟨?_, ?_, ?_, fun m => rfl⟩ <;>
    simp [send_gaze_data, send_screenshot, send_config,
      send_websocket_message, h]

/-- Witness for C7 at a concrete input: a connected instance sends the
gaze message with the four fields. -/
theorem C7_witness :
    (send_gaze_data (3 : Nat) 7 ⟨some false, 0, [], []⟩).2.sent
      = [⟨"gaze", 3, 1, 7⟩] :=
  (C7_outgoing_message_shape ⟨some false, 0, [], []⟩ 3 7 rfl).1

theorem sendWs_sent_ids {μ : Type} (t : String) (p : μ) (ts : Nat)
    (s : SdkState μ)
    (hinv : s.sent.map WsOutMessage.id = List.range' 1 s.request_id) :
    (send_websocket_message t p ts s).2.sent.map WsOutMessage.id
      = List.range' 1 (send_websocket_message t p ts s).2.request_id := by
  by_cases h : wsActive s = true
  · simp [send_websocket_message, h, List.map_append, hinv,
      List.range'_1_concat, Nat.add_comm]
  · simp only [Bool.not_eq_true] at h
    simp [send_websocket_message, h, hinv]

theorem stepOp_sent_ids {μ : Type} (op : SdkOp μ) (s : SdkState μ)
    (hinv : s.sent.map WsOutMessage.id = List.range' 1 s.request_id) :
    (stepOp op s).sent.map WsOutMessage.id
      = List.range' 1 (stepOp op s).request_id := by
  cases op with
  | connect_websocket => simpa [stepOp] using hinv
  | disconnect_websocket => cases hws : s.ws <;> simp [stepOp, hws, hinv]
  | rest_request => simpa [stepOp] using hinv
  | send_gaze_data p ts => exact sendWs_sent_ids "gaze" p ts s hinv
  | send_screenshot p ts => exact sendWs_sent_ids "screenshot" p ts s hinv
  | send_config p ts => exact sendWs_sent_ids "config" p ts s hinv
  | on_websocket_message t cb => simpa [stepOp] using hinv
  | off_websocket_message t cb => simpa [stepOp] using hinv

theorem run_sent_ids {μ : Type} (ops : List (SdkOp μ)) :
    (run ops).sent.map WsOutMessage.id = List.range' 1 (run ops).request_id := by
  suffices h : ∀ s : SdkState μ,
      s.sent.map WsOutMessage.id = List.range' 1 s.request_id →
      (ops.foldl (fun s op => stepOp op s) s).sent.map WsOutMessage.id
        = List.range' 1 (ops.foldl (fun s op => stepOp op s) s).request_id by
    exact h (initState μ) rfl
  induction ops with
  | nil => intro s hs; simpa using hs
  | cons op rest ih =>
    intro s hs
    simpa using ih (stepOp op s) (stepOp_sent_ids op s hs)

/-- C10: `request_id` starts at 0; a successful send increments it by
exactly one and the outgoing message carries the incremented value; a
send that raises for lack of a connection leaves the state (hence
`request_id`) unchanged; so over any run from a fresh instance the ids of
sent messages are exactly `1, 2, …, request_id` — strictly increasing and
unique. -/
theorem C10_request_id_counter {μ : Type} (s : SdkState μ) (t : String)
    (p : μ) (ts : Nat) (ops : List (SdkOp μ)) :
    (initState μ).request_id = 0 ∧
    (wsActive s = true →
      (send_websocket_message t p ts s).2.request_id = s.request_id + 1 ∧
      (send_websocket_message t p ts s).2.sent
        = s.sent ++ [⟨t, p, s.request_id + 1, ts⟩]) ∧
    (wsActive s = false → (send_websocket_message t p ts s).2 = s) ∧
    (run ops).sent.map WsOutMessage.id = List.range' 1 (run ops).request_id ∧
    List.Pairwise (· < ·) ((run ops).sent.map WsOutMessage.id) := by
  refine ⟨rfl, ?_, ?_, run_sent_ids ops, ?_⟩
  · intro h
    constructor <;> simp [send_websocket_message, h]
  · intro h
    simp [send_websocket_message, h]
  · rw [run_sent_ids ops]
    exact List.pairwise_lt_range' 1 _

/-- Witness for C10 at a concrete run: connect, send twice, the ids are
1 then 2. -/
theorem C10_witness :
    (run [SdkOp.connect_websocket, SdkOp.send_gaze_data (5 : Nat) 100,
      SdkOp.send_config 6 101]).sent.map WsOutMessage.id
      = List.range' 1 (run [SdkOp.connect_websocket,
        SdkOp.send_gaze_data (5 : Nat) 100,
        SdkOp.send_config 6 101]).request_id :=
  (C10_request_id_counter (initState Nat) "gaze" 5 100
    [SdkOp.connect_websocket, SdkOp.send_gaze_data 5 100,
     SdkOp.send_config 6 101]).2.2.2.1

theorem invokedIds_invokeCallbacks {μ : Type} (beh : Nat → μ → CbResult)
    (body : μ) (cbs : List Nat) :
    invokedIds (invokeCallbacks beh body cbs) = cbs := by
  induction cbs with
  | nil => rfl
  | cons c rest ih =>
    cases h : beh c body <;> simp [invokeCallbacks, h, invokedIds, ih]

/-- C5: during dispatch an exception from one listener callback is caught
and logged: all callbacks registered for the message's type are invoked
in registration order even when an earlier one raises; the read loop
processes every incoming frame independently of previous ones, and a JSON
parse failure is logged without stopping the loop. -/
theorem C5_listener_errors_do_not_stop_dispatch {μ : Type}
    (beh : Nat → μ → CbResult) (l : List (String × List Nat))
    (msgs : List (RawMessage μ)) :
    (∀ (m : WsInMessage μ) (cbs : List Nat),
      lookupListeners l m.type = some cbs →
      invokedIds (handle_websocket_message beh l m) = cbs) ∧
    websocket_listener beh l msgs = msgs.flatMap (messageEvents beh l) ∧
    (∀ raw, messageEvents beh l (.invalidJson raw) = [.parseError raw]) := by
  refine ⟨?_, ?_, fun raw => rfl⟩
  · intro m cbs hlook
    unfold handle_websocket_message
    rw [hlook]
    exact invokedIds_invokeCallbacks beh m.body cbs
  · induction msgs with
    | nil => rfl
    | cons raw rest ih =>
      cases raw with
      | invalidJson r =>
        simp only [websocket_listener, List.flatMap_cons, ih]
        rfl
      | parsed m =>
        simp only [websocket_listener, List.flatMap_cons, ih]
        rfl

/-- Witness for C5 at a concrete input: two callbacks for type `t`, the
first raising; both are recorded as invoked, in order. -/
theorem C5_witness :
    invokedIds (handle_websocket_message
      (fun c (_ : Nat) => if c = 0 then CbResult.raises "boom" else .ok)
      [("t", [0, 1])] ⟨some "t", 5⟩) = [0, 1] :=
  (C5_listener_errors_do_not_stop_dispatch
    (fun c _ => if c = 0 then CbResult.raises "boom" else .ok)
    [("t", [0, 1])] []).1 ⟨some "t", 5⟩ [0, 1] (by simp [lookupListeners])

/-- The state used to refute C6: an open WebSocket connection and one
registered listener. -/
def c6State : SdkState Nat :=
  ⟨some false, 0, [], [("translation_result", [0])]⟩

/-- C6 is false as stated: `disconnect_websocket` is neither
`on_websocket_message` nor `off_websocket_message`, yet running it on a
connected instance changes the listener registry — line 221 of the source
calls `self.ws_listeners.clear()`. -/
theorem C6_counterexample :
    isListenerAddRemove (SdkOp.disconnect_websocket : SdkOp Nat) = false ∧
    (stepOp SdkOp.disconnect_websocket c6State).ws_listeners
      ≠ c6State.ws_listeners := by
  refine ⟨rfl, ?_⟩
  simp [stepOp, c6State]

/-- C6 amended: the listener registry is mutated only by the explicit
add and remove calls `on_websocket_message` / `off_websocket_message` and
by `disconnect_websocket`, which clears it when a connection exists (and
by `__aexit__`, which calls `disconnect_websocket`); every other SDK
operation leaves the registry's contents unchanged. -/
theorem C6_amended_registry_frame {μ : Type} (op : SdkOp μ) (s : SdkState μ)
    (h : touchesListeners op = false) :
    (stepOp op s).ws_listeners = s.ws_listeners := by
  cases op with
  | connect_websocket => rfl
  | disconnect_websocket => simp [touchesListeners] at h
  | rest_request => rfl
  | send_gaze_data p ts =>
    by_cases hw : wsActive s = true <;>
      simp [stepOp, send_gaze_data, send_websocket_message, hw]
  | send_screenshot p ts =>
    by_cases hw : wsActive s = true <;>
      simp [stepOp, send_screenshot, send_websocket_message, hw]
  | send_config p ts =>
    by_cases hw : wsActive s = true <;>
      simp [stepOp, send_config, send_websocket_message, hw]
  | on_websocket_message t cb => simp [touchesListeners] at h
  | off_websocket_message t cb => simp [touchesListeners] at h

/-- Witness for the amended C6 at a concrete input: connecting leaves the
registry unchanged. -/
theorem C6_amended_witness :
    (stepOp (SdkOp.connect_websocket : SdkOp Nat) c6State).ws_listeners
      = c6State.ws_listeners :=
  C6_amended_registry_frame SdkOp.connect_websocket c6State rfl

end VRTranslate
